import Mathlib

/-!
Verification of the Notary order-lifecycle state machine.

Shallow embedding of the TypeScript sources:
  * `api/lib/schema.ts`        — the `orders` table row and the status enumeration
  * `api/lib/order-service.ts` — single-row reads and writes on the orders table
  * `api/lib/fulfillment.ts`   — Stripe checkout webhook fulfillment
  * `api/lib/admin-actions.ts` — admin approve / reject actions
  * `api/lib/stripe-refunds.ts`— refund call (modelled as a remote-call record)
  * `src/types/validation.ts`  — the Hono HTTP routes (quick-check, validate,
                                 create-checkout-session, stripe webhook)

The database is a list of order rows; remote services (Stripe, GCP storage,
GCP Run, Familink) are oracles passed in as environment records, and every
remote invocation is recorded in an explicit call trace.  Timestamps
(`createdAt`/`updatedAt`) are outside the scope of the claims and are omitted
from the row.
-/

namespace Notary

/-- The `order_status` enumeration of `api/lib/schema.ts`. -/
inductive OrderStatus where
  | created
  | original_uploaded
  | quick_check_completed
  | quick_check_failed
  | validation_started
  | validation_completed
  | validation_failed
  | checkout_started
  | checkout_completed
  | familink_order_created
  | familink_order_creation_failed
  | rejected
  | refund_succeeded
  | refund_failed
  deriving DecidableEq, Repr

/-- Printable status name, used in the error messages interpolated by
`admin-actions.ts`. -/
def OrderStatus.name : OrderStatus → String
  | .created => "created"
  | .original_uploaded => "original_uploaded"
  | .quick_check_completed => "quick_check_completed"
  | .quick_check_failed => "quick_check_failed"
  | .validation_started => "validation_started"
  | .validation_completed => "validation_completed"
  | .validation_failed => "validation_failed"
  | .checkout_started => "checkout_started"
  | .checkout_completed => "checkout_completed"
  | .familink_order_created => "familink_order_created"
  | .familink_order_creation_failed => "familink_order_creation_failed"
  | .rejected => "rejected"
  | .refund_succeeded => "refund_succeeded"
  | .refund_failed => "refund_failed"

/-- A row of the `orders` table (`api/lib/schema.ts`): `id`,
`stripe_session_id`, `stripe_payment_intent_id`, `status`.  The table has no
further data column (in particular no rejection-reason column). -/
structure Order where
  id : String
  stripeSessionId : Option String
  stripePaymentIntentId : Option String
  status : OrderStatus
  deriving DecidableEq, Repr

/-- The orders table. -/
abbrev Db := List Order

/-- `OrderService.getOrderById`: select the first row whose `id` matches. -/
def getOrderById (db : Db) (orderId : String) : Option Order :=
  db.find? (fun o => decide (o.id = orderId))

/-- `OrderService.updateOrderStatus`: set `status` on every row whose `id`
matches. -/
def updateOrderStatus (db : Db) (orderId : String) (status : OrderStatus) : Db :=
  db.map (fun o => if o.id = orderId then { o with status := status } else o)

/-- `OrderService.updateOrderStripeSessionId`. -/
def updateOrderStripeSessionId (db : Db) (orderId : String) (v : String) : Db :=
  db.map (fun o => if o.id = orderId then { o with stripeSessionId := some v } else o)

/-- `OrderService.updateOrderStripePaymentIntentId`. -/
def updateOrderStripePaymentIntentId (db : Db) (orderId : String) (v : String) : Db :=
  db.map (fun o => if o.id = orderId then { o with stripePaymentIntentId := some v } else o)

/-- `OrderService.createOrder`: insert a fresh row with default status
`created` and null Stripe references; the generated uuid is supplied by the
environment. -/
def createOrder (db : Db) (newId : String) : Db × Order :=
  let o : Order := ⟨newId, none, none, OrderStatus.created⟩
  (db ++ [o], o)

/-- Status of the row `getOrderById` would return. -/
def statusOf (db : Db) (orderId : String) : Option OrderStatus :=
  (getOrderById db orderId).map (·.status)

/-- `stripe_payment_intent_id` of the row `getOrderById` would return. -/
def paymentIntentOf (db : Db) (orderId : String) : Option String :=
  (getOrderById db orderId).bind (·.stripePaymentIntentId)

/-- `stripe_session_id` of the row `getOrderById` would return. -/
def sessionIdOf (db : Db) (orderId : String) : Option String :=
  (getOrderById db orderId).bind (·.stripeSessionId)

/-- The fields of a `Stripe.Checkout.Session` read by `fulfillment.ts`:
`id`, `client_reference_id`, `metadata.orderId`, `payment_status`,
`payment_intent`. -/
structure CheckoutSession where
  id : String
  client_reference_id : Option String
  metadata_orderId : Option String
  payment_status : String
  payment_intent : Option String
  deriving DecidableEq, Repr

/-- The fields of a `Stripe.Event` read by `fulfillment.ts`: `id`, `type`,
and `data.object` as a checkout session. -/
structure StripeEvent where
  id : String
  type : String
  session : CheckoutSession
  deriving DecidableEq, Repr

/-- `session.client_reference_id ?? session.metadata?.orderId` followed by the
JavaScript falsiness test `if (!orderId)`: the nullish coalescing takes the
first non-null value, and an empty string is then treated as absent. -/
def sessionOrderRef (session : CheckoutSession) : Option String :=
  match session.client_reference_id with
  | some s => if s = "" then none else some s
  | none =>
    match session.metadata_orderId with
    | some s => if s = "" then none else some s
    | none => none

/-- `handleCheckoutSessionFulfillment` (`api/lib/fulfillment.ts`): resolve the
order reference, look the order up, skip unpaid sessions, then persist the
session id, the payment intent id when present (`if (session.payment_intent)`
— a JavaScript truthiness test, so an empty string is also skipped), and
finally set status `checkout_completed`.  There is no check of the order's
current status. -/
def handleCheckoutSessionFulfillment (db : Db) (session : CheckoutSession) : Db :=
  match sessionOrderRef session with
  | none => db
  | some orderId =>
    match getOrderById db orderId with
    | none => db
    | some order =>
      if session.payment_status = "unpaid" then db
      else
        let db1 := updateOrderStripeSessionId db order.id session.id
        let db2 :=
          match session.payment_intent with
          | some pi => if pi = "" then db1 else updateOrderStripePaymentIntentId db1 order.id pi
          | none => db1
        updateOrderStatus db2 order.id OrderStatus.checkout_completed

/-- `handleStripeWebhookEvent` (`api/lib/fulfillment.ts`): only
`checkout.session.completed` and `checkout.session.async_payment_succeeded`
are meaningful; every other event type is ignored. -/
def handleStripeWebhookEvent (db : Db) (event : StripeEvent) : Db :=
  if event.type = "checkout.session.completed" ∨
     event.type = "checkout.session.async_payment_succeeded" then
    handleCheckoutSessionFulfillment db event.session
  else db

/-- The shipping payload parsed by `parseShippingMetadata`
(`api/lib/admin-actions.ts`). -/
structure ShippingMetadata where
  first_name : String
  last_name : String
  address_1 : String
  address_2 : Option String
  city : String
  postal_or_zip_code : String
  state : Option String
  country_code : String
  email : Option String
  phone : Option String
  deriving DecidableEq, Repr

/-- One remote invocation performed by an admin action, recorded in order. -/
inductive RemoteCall where
  | retrieveSession (sessionId : Option String)
  | getSignedUrl (orderId : String) (filename : String)
  | createFamilinkOrder (orderId : String)
  | refund (paymentIntentId : String) (orderId : String) (reason : String)
  deriving DecidableEq, Repr

/-- Result of an admin action: the database after the call, the thrown error
message if any, and the trace of remote calls that were issued. -/
structure ActionOutcome where
  db : Db
  error : Option String
  calls : List RemoteCall
  deriving DecidableEq, Repr

/-- Oracle for the remote calls `approveOrder` makes.  `retrieveResult` is
the combined outcome of `stripe.checkout.sessions.retrieve` followed by
`parseShippingMetadata` (`none` covers both a missing `metadata.shipping`
field and a JSON parse failure). -/
structure ApproveEnv where
  retrieveResult : Except String (Option ShippingMetadata)
  signedUrlResult : Except String String
  familinkResult : Except String Unit

/-- `approveOrder` (`api/lib/admin-actions.ts`): look the order up, require
status exactly `checkout_completed`, retrieve the checkout session (keyed by
`order.stripeSessionId!` — no payment-intent check), require parsable
shipping metadata, then inside the try block fetch a signed URL for
`validated.jpg` and create the Familink print order; on success set
`familink_order_created`, on any failure inside the try block set
`familink_order_creation_failed` and rethrow. -/
def approveOrder (env : ApproveEnv) (db : Db) (orderId : String) : ActionOutcome :=
  match getOrderById db orderId with
  | none => ⟨db, some "Order not found", []⟩
  | some order =>
    if order.status ≠ OrderStatus.checkout_completed then
      ⟨db, some ("Order cannot be approved. Current status: " ++ order.status.name), []⟩
    else
      match env.retrieveResult with
      | .error e =>
        ⟨db, some e, [.retrieveSession order.stripeSessionId]⟩
      | .ok none =>
        ⟨db, some "Order missing shipping information", [.retrieveSession order.stripeSessionId]⟩
      | .ok (some _) =>
        match env.signedUrlResult with
        | .error e =>
          ⟨updateOrderStatus db orderId OrderStatus.familink_order_creation_failed,
           some ("Failed to send order to printer: " ++ e),
           [.retrieveSession order.stripeSessionId, .getSignedUrl orderId "validated.jpg"]⟩
        | .ok _ =>
          match env.familinkResult with
          | .error e =>
            ⟨updateOrderStatus db orderId OrderStatus.familink_order_creation_failed,
             some ("Failed to send order to printer: " ++ e),
             [.retrieveSession order.stripeSessionId, .getSignedUrl orderId "validated.jpg",
              .createFamilinkOrder orderId]⟩
          | .ok _ =>
            ⟨updateOrderStatus db orderId OrderStatus.familink_order_created,
             none,
             [.retrieveSession order.stripeSessionId, .getSignedUrl orderId "validated.jpg",
              .createFamilinkOrder orderId]⟩

/-- Oracle for the refund call `rejectOrder` makes (`stripe-refunds.ts`):
`ok refundId` or a thrown error. -/
structure RejectEnv where
  refundResult : Except String String

/-- `rejectOrder` (`api/lib/admin-actions.ts`): look the order up, require
status exactly `checkout_completed`, require a payment intent id
(`if (!order.stripePaymentIntentId)` — truthiness, so an empty string also
fails), set status `rejected`, then refund; on refund success set
`refund_succeeded`, on refund failure set `refund_failed` and rethrow.  The
reason string is only forwarded to the refund call; no column of the orders
table receives it. -/
def rejectOrder (env : RejectEnv) (db : Db) (orderId : String) (reason : String) :
    ActionOutcome :=
  match getOrderById db orderId with
  | none => ⟨db, some "Order not found", []⟩
  | some order =>
    if order.status ≠ OrderStatus.checkout_completed then
      ⟨db, some ("Order cannot be rejected. Current status: " ++ order.status.name), []⟩
    else
      match order.stripePaymentIntentId with
      | none => ⟨db, some "Order missing payment information", []⟩
      | some pi =>
        if pi = "" then ⟨db, some "Order missing payment information", []⟩
        else
          let db1 := updateOrderStatus db orderId OrderStatus.rejected
          match env.refundResult with
          | .ok _ =>
            ⟨updateOrderStatus db1 orderId OrderStatus.refund_succeeded,
             none, [.refund pi orderId reason]⟩
          | .error e =>
            ⟨updateOrderStatus db1 orderId OrderStatus.refund_failed,
             some ("Failed to process refund: " ++ e), [.refund pi orderId reason]⟩

/-- The JSON payload the quick-check route reads out of a successful
`triggerGCPRun` response (`data.face_count`, `data.message`; the remote's own
`success` flag is part of the payload but the route never reads it). -/
structure QuickCheckData where
  success : Bool
  face_count : Nat
  message : String
  deriving DecidableEq, Repr

/-- `triggerGCPRun` (`api/lib/.gcp-run.js`): `success` is true exactly when
the HTTP request to the GCP Run service returned an ok status; `data` is the
response JSON (only meaningful when `success`), `error` the caught message
otherwise. -/
structure GcpRunResult where
  success : Bool
  data : QuickCheckData
  error : Option String
  deriving DecidableEq, Repr

/-- Modelled from the spec: the remote quick-check ML service lives in the
gcp-api component, whose implementation is not under src (only its test
suite's README is); per the spec's Photo Validation Gateway contract a photo
can be successfully processed yet judged non-compliant — success-with-
negative-result, not an error — so a two-face image yields a successful
(HTTP ok) remote call whose JSON payload reports `face_count` 2 with its own
negative `success` flag. -/
def twoFaceGcpResult : GcpRunResult :=
  ⟨true, ⟨false, 2, "Expected 1 face, found 2"⟩, none⟩

/-- `gcpResponse.error || 'GCP processing failed'` — JavaScript `||`, so a
missing or empty message falls back to the default. -/
def gcpErrorMessage (r : GcpRunResult) : String :=
  match r.error with
  | some e => if e = "" then "GCP processing failed" else e
  | none => "GCP processing failed"

/-- Response body of the quick-check route (only the fields the route can
emit; absent JSON fields are `none`). -/
structure QuickCheckResponse where
  statusCode : Nat
  success : Bool
  faceCount : Option Nat
  message : Option String
  imageUrl : Option String
  orderId : Option String
  error : Option String
  deriving DecidableEq, Repr

/-- Oracle for the quick-check route: the uuid the insert generates, the
upload result (`imageUrl` or a thrown storage error) and the GCP Run
response. -/
structure QuickCheckEnv where
  newOrderId : String
  uploadResult : Except String String
  gcp : GcpRunResult
  deriving Repr

/-- `POST /api/photo/quick-check` (`src/types/validation.ts`): create an
order, upload the original image, set `original_uploaded`, trigger the GCP
Run quick check; if the remote call failed set `quick_check_failed` and
answer 500 `{success:false, error}` (no face count); otherwise set
`quick_check_completed` and answer 200 `{success:true, faceCount, message,
imageUrl, orderId}` — `success` is the transport-level flag, written
literally as `true`, not the remote payload's own `success`.  A storage
throw is caught by the outer handler and answered 500 with no further status
write. -/
def quickCheckRoute (env : QuickCheckEnv) (db : Db) : Db × QuickCheckResponse :=
  let created := createOrder db env.newOrderId
  let db0 := created.1
  let order := created.2
  match env.uploadResult with
  | .error e =>
    (db0, ⟨500, false, none, none, none, none, some e⟩)
  | .ok imageUrl =>
    let db1 := updateOrderStatus db0 order.id OrderStatus.original_uploaded
    if env.gcp.success = false then
      (updateOrderStatus db1 order.id OrderStatus.quick_check_failed,
       ⟨500, false, none, none, none, none, some (gcpErrorMessage env.gcp)⟩)
    else
      (updateOrderStatus db1 order.id OrderStatus.quick_check_completed,
       ⟨200, true, some env.gcp.data.face_count, some env.gcp.data.message,
        some imageUrl, some order.id, none⟩)

/-- Response body of the validate route (fields relevant to the claims; the
forwarded GCP payload apart from the added metadata is left out). -/
structure ValidateResponse where
  statusCode : Nat
  orderId : Option String
  imageUrl : Option String
  error : Option String
  deriving DecidableEq, Repr

/-- Oracle for the validate route: the GCP Run response and the signed-URL
fetch for `validated.jpg`. -/
structure ValidateEnv where
  gcp : GcpRunResult
  signedUrlResult : Except String String
  deriving Repr

/-- `POST /api/photo/validate` (`src/types/validation.ts`): look the order
up (404 when missing), set `validation_started` — with no check of the
current status — trigger the GCP Run validation; on remote failure set
`validation_failed` and answer 500; on success set `validation_completed`
and answer with the signed validated-image URL (a signed-URL throw is caught
by the outer handler and answered 500, the status staying
`validation_completed`). -/
def validateRoute (env : ValidateEnv) (db : Db) (orderId : String) :
    Db × ValidateResponse :=
  match getOrderById db orderId with
  | none => (db, ⟨404, none, none, some "Order not found"⟩)
  | some order =>
    let db1 := updateOrderStatus db order.id OrderStatus.validation_started
    if env.gcp.success = false then
      (updateOrderStatus db1 order.id OrderStatus.validation_failed,
       ⟨500, none, none, some (gcpErrorMessage env.gcp)⟩)
    else
      let db2 := updateOrderStatus db1 order.id OrderStatus.validation_completed
      match env.signedUrlResult with
      | .error e => (db2, ⟨500, none, none, some e⟩)
      | .ok url => (db2, ⟨200, some order.id, some url, none⟩)

/-- An observable action of the checkout route, in the order performed. -/
inductive CheckoutEv where
  | statusWrite (s : OrderStatus)
  | stripeCreateSession
  deriving DecidableEq, Repr

/-- Plain HTTP response (status code plus optional error message). -/
structure HttpResponse where
  statusCode : Nat
  error : Option String
  deriving DecidableEq, Repr

/-- Outcome of the checkout route: database, response, and the ordered trace
of status writes and payment-gateway calls. -/
structure CheckoutOutcome where
  db : Db
  resp : HttpResponse
  events : List CheckoutEv
  deriving DecidableEq, Repr

/-- Oracle for `stripe.checkout.sessions.create`: the session url or a
thrown error. -/
structure CheckoutEnv where
  createSessionResult : Except String String

/-- `POST /api/stripe/create-checkout-session` (`src/types/validation.ts`):
require an `orderId` query parameter (JavaScript truthiness, so the empty
string is missing too), look the order up (404 when missing), answer 400
when the status is not exactly `validation_completed`, otherwise set
`checkout_started` and only then call the payment gateway to create the
session; a gateway throw is answered 500 with the status left at
`checkout_started`. -/
def createCheckoutSessionRoute (env : CheckoutEnv) (db : Db)
    (orderId : Option String) : CheckoutOutcome :=
  match orderId with
  | none => ⟨db, ⟨400, some "Order ID is required"⟩, []⟩
  | some oid =>
    if oid = "" then ⟨db, ⟨400, some "Order ID is required"⟩, []⟩
    else
      match getOrderById db oid with
      | none => ⟨db, ⟨404, some "Order not found"⟩, []⟩
      | some order =>
        if order.status ≠ OrderStatus.validation_completed then
          ⟨db, ⟨400, some "Order is not in a valid state for checkout"⟩, []⟩
        else
          let db1 := updateOrderStatus db order.id OrderStatus.checkout_started
          match env.createSessionResult with
          | .error e =>
            ⟨db1, ⟨500, some ("Stripe error: " ++ e)⟩,
             [.statusWrite OrderStatus.checkout_started, .stripeCreateSession]⟩
          | .ok _ =>
            ⟨db1, ⟨303, none⟩,
             [.statusWrite OrderStatus.checkout_started, .stripeCreateSession]⟩

/-- Response of the webhook route: status code, the `{received:true}` flag
and the error message if any. -/
structure WebhookResponse where
  statusCode : Nat
  received : Bool
  error : Option String
  deriving DecidableEq, Repr

/-- Oracle for the webhook route: the result of
`stripe.webhooks.constructEvent` (signature verification), and whether the
dispatched — not awaited — fulfillment promise rejects, in which case its
error is only logged and none of its writes are taken as committed. -/
structure WebhookEnv where
  verifiedEvent : Except String StripeEvent
  handlerCrashes : Bool

/-- `POST /api/stripe/webhook` (`src/types/validation.ts`): a missing (or
empty — truthiness) `stripe-signature` header is answered 400; a signature
verification failure is answered 400; otherwise `handleStripeWebhookEvent`
is dispatched without `await`, its rejection only logged, and the route
answers 200 `{received:true}` regardless of what the handler does. -/
def stripeWebhookRoute (env : WebhookEnv) (db : Db) (signature : Option String) :
    Db × WebhookResponse :=
  match signature with
  | none => (db, ⟨400, false, some "No signature provided"⟩)
  | some s =>
    if s = "" then (db, ⟨400, false, some "No signature provided"⟩)
    else
      match env.verifiedEvent with
      | .error _ => (db, ⟨400, false, some "Webhook signature verification failed"⟩)
      | .ok event =>
        (if env.handlerCrashes then db else handleStripeWebhookEvent db event,
         ⟨200, true, none⟩)

/-- One externally triggered operation on the order store. -/
inductive Trigger where
  | webhook (event : StripeEvent)
  | quickCheck (env : QuickCheckEnv)
  | validate (env : ValidateEnv) (orderId : String)
  | checkout (env : CheckoutEnv) (orderId : Option String)
  | approve (env : ApproveEnv) (orderId : String)
  | reject (env : RejectEnv) (orderId : String) (reason : String)

/-- Database effect of one trigger. -/
def step (db : Db) : Trigger → Db
  | .webhook event => handleStripeWebhookEvent db event
  | .quickCheck env => (quickCheckRoute env db).1
  | .validate env orderId => (validateRoute env db orderId).1
  | .checkout env orderId => (createCheckoutSessionRoute env db orderId).db
  | .approve env orderId => (approveOrder env db orderId).db
  | .reject env orderId reason => (rejectOrder env db orderId reason).db

/-- Database after a sequence of triggers. -/
def run (db : Db) : List Trigger → Db
  | [] => db
  | t :: ts => run (step db t) ts

/-- `visits db ts i s` holds when order `i` is in status `s` at some point
along the execution of `ts` from `db` (the initial point included). -/
def visits : Db → List Trigger → String → OrderStatus → Bool
  | db, [], i, s => statusOf db i == some s
  | db, t :: ts, i, s => statusOf db i == some s || visits (step db t) ts i s

/-- Every row a session invariant cares about: an order in
`checkout_completed` carries a stripe session id. -/
def SessionInv (db : Db) : Prop :=
  ∀ o ∈ db, o.status = OrderStatus.checkout_completed → o.stripeSessionId.isSome

/-- The payment-intent value the fulfillment handler actually persists:
present and non-empty, or nothing. -/
def effectivePaymentIntent (session : CheckoutSession) : Option String :=
  match session.payment_intent with
  | some p => if p = "" then none else some p
  | none => none

/-- Pointwise effect of the fulfillment write chain on the row keyed `j`. -/
def fulfillApply (j sid : String) (pi? : Option String) (o : Order) : Order :=
  if o.id = j then
    { o with
      stripeSessionId := some sid
      stripePaymentIntentId :=
        match pi? with
        | some p => some p
        | none => o.stripePaymentIntentId
      status := OrderStatus.checkout_completed }
  else o

/-! ### Lookup and update lemmas -/

theorem getOrderById_id {db : Db} {i : String} {o : Order}
    (h : getOrderById db i = some o) : o.id = i := by
  have hp := List.find?_some h
  simpa using hp

theorem getOrderById_mem {db : Db} {i : String} {o : Order}
    (h : getOrderById db i = some o) : o ∈ db :=
  List.mem_of_find?_eq_some h

theorem getOrderById_map (db : Db) (f : Order → Order)
    (hf : ∀ o, (f o).id = o.id) (i : String) :
    getOrderById (db.map f) i = (getOrderById db i).map f := by
  induction db with
  | nil => rfl
  | cons o t ih =>
    by_cases h : o.id = i
    · have h1 : (decide ((f o).id = i)) = true := by simp [hf, h]
      have h2 : (decide (o.id = i)) = true := by simp [h]
      simp only [getOrderById, List.map_cons, List.find?]
      rw [h1, h2]
      rfl
    · have h1 : (decide ((f o).id = i)) = false := by simp [hf, h]
      have h2 : (decide (o.id = i)) = false := by simp [h]
      simp only [getOrderById, List.map_cons, List.find?]
      rw [h1, h2]
      exact ih

theorem getOrderById_append_single (db : Db) (o : Order) (i : String) :
    getOrderById (db ++ [o]) i =
      match getOrderById db i with
      | some r => some r
      | none => if o.id = i then some o else none := by
  induction db with
  | nil =>
    by_cases h : o.id = i <;>
      simp [getOrderById, List.find?, h]
  | cons a t ih =>
    by_cases h : a.id = i
    · have h2 : (decide (a.id = i)) = true := by simp [h]
      simp only [getOrderById, List.cons_append, List.find?]
      rw [h2]
    · have h2 : (decide (a.id = i)) = false := by simp [h]
      simp only [getOrderById, List.cons_append, List.find?]
      rw [h2]
      exact ih

theorem statusOf_updateOrderStatus (db : Db) (j : String) (s : OrderStatus)
    (i : String) :
    statusOf (updateOrderStatus db j s) i =
      if i = j then (statusOf db i).map (fun _ => s) else statusOf db i := by
  unfold statusOf updateOrderStatus
  rw [getOrderById_map db _ (fun o => by by_cases h : o.id = j <;> simp [h]) i]
  cases h : getOrderById db i with
  | none => by_cases hij : i = j <;> simp
  | some o =>
    have hid := getOrderById_id h
    by_cases hij : i = j
    · simp [hid, hij]
    · simp [hid, hij]

theorem statusOf_updateOrderStripeSessionId (db : Db) (j v : String) (i : String) :
    statusOf (updateOrderStripeSessionId db j v) i = statusOf db i := by
  unfold statusOf updateOrderStripeSessionId
  rw [getOrderById_map db _ (fun o => by by_cases h : o.id = j <;> simp [h]) i]
  cases h : getOrderById db i with
  | none => simp
  | some o => by_cases hj : o.id = j <;> simp [hj]

theorem statusOf_updateOrderStripePaymentIntentId (db : Db) (j v : String)
    (i : String) :
    statusOf (updateOrderStripePaymentIntentId db j v) i = statusOf db i := by
  unfold statusOf updateOrderStripePaymentIntentId
  rw [getOrderById_map db _ (fun o => by by_cases h : o.id = j <;> simp [h]) i]
  cases h : getOrderById db i with
  | none => simp
  | some o => by_cases hj : o.id = j <;> simp [hj]

/-! ### The fulfillment mutation as a single row function -/

theorem fulfillApply_id (j sid : String) (pi? : Option String) (o : Order) :
    (fulfillApply j sid pi? o).id = o.id := by
  unfold fulfillApply
  by_cases h : o.id = j <;> simp [h]

theorem fulfillApply_idem (j sid : String) (pi? : Option String) (o : Order) :
    fulfillApply j sid pi? (fulfillApply j sid pi? o) = fulfillApply j sid pi? o := by
  unfold fulfillApply
  by_cases h : o.id = j
  · cases pi? <;> simp [h]
  · simp [h]

theorem chain_eq_nopi (db : Db) (j sid : String) :
    updateOrderStatus (updateOrderStripeSessionId db j sid) j
        OrderStatus.checkout_completed =
      db.map (fulfillApply j sid none) := by
  unfold updateOrderStatus updateOrderStripeSessionId
  rw [List.map_map]
  apply List.map_congr_left
  intro o _
  unfold fulfillApply
  by_cases h : o.id = j <;> simp [Function.comp, h]

theorem chain_eq_pi (db : Db) (j sid pival : String) :
    updateOrderStatus
        (updateOrderStripePaymentIntentId
          (updateOrderStripeSessionId db j sid) j pival) j
        OrderStatus.checkout_completed =
      db.map (fulfillApply j sid (some pival)) := by
  unfold updateOrderStatus updateOrderStripeSessionId updateOrderStripePaymentIntentId
  rw [List.map_map, List.map_map]
  apply List.map_congr_left
  intro o _
  unfold fulfillApply
  by_cases h : o.id = j <;> simp [Function.comp, h]

theorem handle_fulfill_noop_of_noref {session : CheckoutSession} (db : Db)
    (href : sessionOrderRef session = none) :
    handleCheckoutSessionFulfillment db session = db := by
  unfold handleCheckoutSessionFulfillment
  rw [href]

theorem handle_fulfill_noop_of_notfound {db : Db} {session : CheckoutSession}
    {orderId : String} (href : sessionOrderRef session = some orderId)
    (hord : getOrderById db orderId = none) :
    handleCheckoutSessionFulfillment db session = db := by
  unfold handleCheckoutSessionFulfillment
  rw [href]
  simp only [hord]

theorem handle_fulfill_noop_of_unpaid {db : Db} {session : CheckoutSession}
    {orderId : String} {order : Order}
    (href : sessionOrderRef session = some orderId)
    (hord : getOrderById db orderId = some order)
    (hps : session.payment_status = "unpaid") :
    handleCheckoutSessionFulfillment db session = db := by
  unfold handleCheckoutSessionFulfillment
  rw [href]
  simp [hord, hps]

/-- When the fulfillment handler does transition (reference resolves, order
found, session paid), its whole effect is mapping the single-row fulfillment
function over the table. -/
theorem handle_fulfill_of_found {db : Db} {session : CheckoutSession}
    {orderId : String} {order : Order}
    (href : sessionOrderRef session = some orderId)
    (hord : getOrderById db orderId = some order)
    (hps : ¬ session.payment_status = "unpaid") :
    handleCheckoutSessionFulfillment db session =
      db.map (fulfillApply order.id session.id (effectivePaymentIntent session)) := by
  unfold handleCheckoutSessionFulfillment
  rw [href]
  simp only [hord, if_neg hps]
  cases hpi : session.payment_intent with
  | none =>
    simpa [effectivePaymentIntent, hpi] using chain_eq_nopi db order.id session.id
  | some pi =>
    by_cases hp : pi = ""
    · subst hp
      simpa [effectivePaymentIntent, hpi] using chain_eq_nopi db order.id session.id
    · simp only [if_neg hp]
      simpa [effectivePaymentIntent, hpi, hp] using chain_eq_pi db order.id session.id pi

theorem handleCheckoutSessionFulfillment_idem (db : Db) (session : CheckoutSession) :
    handleCheckoutSessionFulfillment (handleCheckoutSessionFulfillment db session)
        session =
      handleCheckoutSessionFulfillment db session := by
  cases href : sessionOrderRef session with
  | none =>
    rw [handle_fulfill_noop_of_noref db href, handle_fulfill_noop_of_noref db href]
  | some orderId =>
    cases hord : getOrderById db orderId with
    | none =>
      rw [handle_fulfill_noop_of_notfound href hord,
          handle_fulfill_noop_of_notfound href hord]
    | some order =>
      by_cases hps : session.payment_status = "unpaid"
      · rw [handle_fulfill_noop_of_unpaid href hord hps,
            handle_fulfill_noop_of_unpaid href hord hps]
      · have h1 := handle_fulfill_of_found href hord hps
        rw [h1]
        have hord2 : getOrderById
            (db.map (fulfillApply order.id session.id (effectivePaymentIntent session)))
            orderId =
            some (fulfillApply order.id session.id (effectivePaymentIntent session) order) := by
          rw [getOrderById_map db _ (fun o => fulfillApply_id _ _ _ o) orderId, hord]
          rfl
        have h2 := handle_fulfill_of_found href hord2 hps
        rw [h2, fulfillApply_id, List.map_map]
        apply List.map_congr_left
        intro o _
        simpa [Function.comp] using fulfillApply_idem order.id session.id
          (effectivePaymentIntent session) o

/-! ### Which statuses each trigger can write -/

theorem statusOf_map_fulfillApply (db : Db) (j sid : String) (pi? : Option String)
    (i : String) :
    statusOf (db.map (fulfillApply j sid pi?)) i = statusOf db i ∨
      statusOf (db.map (fulfillApply j sid pi?)) i =
        some OrderStatus.checkout_completed := by
  unfold statusOf
  rw [getOrderById_map db _ (fun o => fulfillApply_id _ _ _ o) i]
  cases h : getOrderById db i with
  | none => left; rfl
  | some o =>
    by_cases hid : o.id = j
    · right; simp [fulfillApply, hid]
    · left; simp [fulfillApply, hid]

theorem statusOf_webhook_cases (db : Db) (event : StripeEvent) (i : String) :
    statusOf (handleStripeWebhookEvent db event) i = statusOf db i ∨
      statusOf (handleStripeWebhookEvent db event) i =
        some OrderStatus.checkout_completed := by
  unfold handleStripeWebhookEvent
  by_cases ht : event.type = "checkout.session.completed" ∨
      event.type = "checkout.session.async_payment_succeeded"
  · simp only [if_pos ht]
    cases href : sessionOrderRef event.session with
    | none => rw [handle_fulfill_noop_of_noref db href]; left; rfl
    | some orderId =>
      cases hord : getOrderById db orderId with
      | none => rw [handle_fulfill_noop_of_notfound href hord]; left; rfl
      | some order =>
        by_cases hps : event.session.payment_status = "unpaid"
        · rw [handle_fulfill_noop_of_unpaid href hord hps]; left; rfl
        · rw [handle_fulfill_of_found href hord hps]
          exact statusOf_map_fulfillApply db order.id event.session.id _ i
  · simp only [if_neg ht]; left; trivial

theorem statusOf_quickCheck_cases (env : QuickCheckEnv) (db : Db) (i : String) :
    statusOf ((quickCheckRoute env db).1) i = statusOf db i ∨
      statusOf ((quickCheckRoute env db).1) i = some OrderStatus.created ∨
      statusOf ((quickCheckRoute env db).1) i = some OrderStatus.original_uploaded ∨
      statusOf ((quickCheckRoute env db).1) i = some OrderStatus.quick_check_failed ∨
      statusOf ((quickCheckRoute env db).1) i =
        some OrderStatus.quick_check_completed := by
  have happ : statusOf (db ++ [⟨env.newOrderId, none, none, OrderStatus.created⟩]) i
      = statusOf db i ∨
      statusOf (db ++ [⟨env.newOrderId, none, none, OrderStatus.created⟩]) i
      = some OrderStatus.created := by
    unfold statusOf
    rw [getOrderById_append_single]
    cases h : getOrderById db i with
    | none =>
      by_cases hid : env.newOrderId = i
      · right; simp [hid]
      · left; simp [hid]
    | some o => left; rfl
  unfold quickCheckRoute createOrder
  cases hu : env.uploadResult with
  | error e =>
    rcases happ with h | h
    · left; exact h
    · right; left; exact h
  | ok url =>
    by_cases hg : env.gcp.success = false
    · simp only [if_pos hg]
      rw [statusOf_updateOrderStatus, statusOf_updateOrderStatus]
      by_cases hid : i = env.newOrderId
      · simp only [if_pos hid]
        rcases happ with h | h <;> rw [h]
        · cases hsi : statusOf db i with
          | none => left; simp [hsi]
          | some s => right; right; right; left; simp [hsi]
        · right; right; right; left; simp
      · simp only [if_neg hid]
        rcases happ with h | h
        · left; exact h
        · right; left; exact h
    · simp only [if_neg hg]
      rw [statusOf_updateOrderStatus, statusOf_updateOrderStatus]
      by_cases hid : i = env.newOrderId
      · simp only [if_pos hid]
        rcases happ with h | h <;> rw [h]
        · cases hsi : statusOf db i with
          | none => left; simp [hsi]
          | some s => right; right; right; right; simp [hsi]
        · right; right; right; right; simp
      · simp only [if_neg hid]
        rcases happ with h | h
        · left; exact h
        · right; left; exact h

theorem statusOf_validate_cases (env : ValidateEnv) (db : Db) (orderId i : String) :
    statusOf ((validateRoute env db orderId).1) i = statusOf db i ∨
      statusOf ((validateRoute env db orderId).1) i =
        some OrderStatus.validation_failed ∨
      statusOf ((validateRoute env db orderId).1) i =
        some OrderStatus.validation_completed := by
  unfold validateRoute
  cases hord : getOrderById db orderId with
  | none => left; rfl
  | some order =>
    by_cases hg : env.gcp.success = false
    · simp only [if_pos hg]
      rw [statusOf_updateOrderStatus, statusOf_updateOrderStatus]
      by_cases hid : i = order.id
      · simp only [if_pos hid]
        cases hsi : statusOf db i with
        | none => left; simp [hsi]
        | some s => right; left; simp [hsi]
      · simp only [if_neg hid]; left; trivial
    · simp only [if_neg hg]
      cases hs : env.signedUrlResult with
      | error e =>
        rw [statusOf_updateOrderStatus, statusOf_updateOrderStatus]
        by_cases hid : i = order.id
        · simp only [if_pos hid]
          cases hsi : statusOf db i with
          | none => left; simp [hsi]
          | some s => right; right; simp [hsi]
        · simp only [if_neg hid]; left; trivial
      | ok url =>
        rw [statusOf_updateOrderStatus, statusOf_updateOrderStatus]
        by_cases hid : i = order.id
        · simp only [if_pos hid]
          cases hsi : statusOf db i with
          | none => left; simp [hsi]
          | some s => right; right; simp [hsi]
        · simp only [if_neg hid]; left; trivial

theorem statusOf_checkout_cases (env : CheckoutEnv) (db : Db)
    (orderId : Option String) (i : String) :
    statusOf ((createCheckoutSessionRoute env db orderId).db) i = statusOf db i ∨
      statusOf ((createCheckoutSessionRoute env db orderId).db) i =
        some OrderStatus.checkout_started := by
  unfold createCheckoutSessionRoute
  cases orderId with
  | none => left; rfl
  | some oid =>
    by_cases he : oid = ""
    · simp only [if_pos he]; left; trivial
    · simp only [if_neg he]
      cases hord : getOrderById db oid with
      | none => left; rfl
      | some order =>
        by_cases hst : order.status = OrderStatus.validation_completed
        · simp only [hst, if_neg (by simp : ¬ OrderStatus.validation_completed ≠
            OrderStatus.validation_completed)]
          cases hc : env.createSessionResult with
          | error e =>
            rw [statusOf_updateOrderStatus]
            by_cases hid : i = order.id
            · simp only [if_pos hid]
              cases hsi : statusOf db i with
              | none => left; simp [hsi]
              | some s => right; simp [hsi]
            · simp only [if_neg hid]; left; trivial
          | ok url =>
            rw [statusOf_updateOrderStatus]
            by_cases hid : i = order.id
            · simp only [if_pos hid]
              cases hsi : statusOf db i with
              | none => left; simp [hsi]
              | some s => right; simp [hsi]
            · simp only [if_neg hid]; left; trivial
        · simp only [if_pos (by simpa using hst : order.status ≠
            OrderStatus.validation_completed)]
          left; trivial

theorem statusOf_approve_cases (env : ApproveEnv) (db : Db) (oid i : String) :
    statusOf ((approveOrder env db oid).db) i = statusOf db i ∨
      statusOf ((approveOrder env db oid).db) i =
        some OrderStatus.familink_order_creation_failed ∨
      (statusOf ((approveOrder env db oid).db) i =
          some OrderStatus.familink_order_created ∧
        statusOf db i = some OrderStatus.checkout_completed) := by
  unfold approveOrder
  cases hord : getOrderById db oid with
  | none => left; rfl
  | some order =>
    by_cases hst : order.status = OrderStatus.checkout_completed
    · simp only [hst, if_neg (by simp : ¬ OrderStatus.checkout_completed ≠
        OrderStatus.checkout_completed)]
      have hcc : statusOf db oid = some OrderStatus.checkout_completed := by
        unfold statusOf; rw [hord]; simp [hst]
      cases hr : env.retrieveResult with
      | error e => left; rfl
      | ok ship =>
        cases ship with
        | none => left; rfl
        | some sh =>
          cases hs : env.signedUrlResult with
          | error e =>
            rw [statusOf_updateOrderStatus]
            by_cases hid : i = oid
            · simp only [if_pos hid]
              cases hsi : statusOf db i with
              | none => left; simp [hsi]
              | some s => right; left; simp [hsi]
            · simp only [if_neg hid]; left; trivial
          | ok url =>
            cases hf : env.familinkResult with
            | error e =>
              rw [statusOf_updateOrderStatus]
              by_cases hid : i = oid
              · simp only [if_pos hid]
                cases hsi : statusOf db i with
                | none => left; simp [hsi]
                | some s => right; left; simp [hsi]
              · simp only [if_neg hid]; left; trivial
            | ok u =>
              rw [statusOf_updateOrderStatus]
              by_cases hid : i = oid
              · simp only [if_pos hid]
                cases hsi : statusOf db i with
                | none => left; simp [hsi]
                | some s =>
                  right; right
                  refine ⟨by simp [hsi], ?_⟩
                  rw [← hsi, hid]; exact hcc
              · simp only [if_neg hid]; left; trivial
    · simp only [if_pos (by simpa using hst : order.status ≠
        OrderStatus.checkout_completed)]
      left; trivial

theorem statusOf_reject_cases (env : RejectEnv) (db : Db) (oid reason i : String) :
    statusOf ((rejectOrder env db oid reason).db) i = statusOf db i ∨
      statusOf ((rejectOrder env db oid reason).db) i =
        some OrderStatus.refund_succeeded ∨
      statusOf ((rejectOrder env db oid reason).db) i =
        some OrderStatus.refund_failed := by
  unfold rejectOrder
  cases hord : getOrderById db oid with
  | none => left; rfl
  | some order =>
    by_cases hst : order.status = OrderStatus.checkout_completed
    · simp only [hst, if_neg (by simp : ¬ OrderStatus.checkout_completed ≠
        OrderStatus.checkout_completed)]
      cases hpi : order.stripePaymentIntentId with
      | none => left; rfl
      | some pival =>
        by_cases hpe : pival = ""
        · simp only [if_pos hpe]; left; trivial
        · simp only [if_neg hpe]
          cases hr : env.refundResult with
          | ok rid =>
            rw [statusOf_updateOrderStatus, statusOf_updateOrderStatus]
            by_cases hid : i = oid
            · simp only [if_pos hid]
              cases hsi : statusOf db i with
              | none => left; simp [hsi]
              | some s => right; left; simp [hsi]
            · simp only [if_neg hid]; left; trivial
          | error e =>
            rw [statusOf_updateOrderStatus, statusOf_updateOrderStatus]
            by_cases hid : i = oid
            · simp only [if_pos hid]
              cases hsi : statusOf db i with
              | none => left; simp [hsi]
              | some s => right; right; simp [hsi]
            · simp only [if_neg hid]; left; trivial
    · simp only [if_pos (by simpa using hst : order.status ≠
        OrderStatus.checkout_completed)]
      left; trivial

/-! ### Preservation of the session invariant -/

theorem sessionInv_updateOrderStatus {db : Db} {j : String} {s : OrderStatus}
    (hs : s ≠ OrderStatus.checkout_completed) (h : SessionInv db) :
    SessionInv (updateOrderStatus db j s) := by
  intro o' ho' hcc
  rcases List.mem_map.mp ho' with ⟨o, ho, rfl⟩
  by_cases hid : o.id = j
  · simp only [if_pos hid] at hcc
    exact absurd hcc hs
  · simp only [if_neg hid] at hcc ⊢
    exact h o ho hcc

theorem sessionInv_map_fulfillApply {db : Db} (j sid : String)
    (pi? : Option String) (h : SessionInv db) :
    SessionInv (db.map (fulfillApply j sid pi?)) := by
  intro o' ho' hcc
  rcases List.mem_map.mp ho' with ⟨o, ho, rfl⟩
  unfold fulfillApply at hcc ⊢
  by_cases hid : o.id = j
  · simp [hid]
  · simp only [if_neg hid] at hcc ⊢
    exact h o ho hcc

theorem sessionInv_append_created {db : Db} {o : Order}
    (h : SessionInv db) (ho : o.status ≠ OrderStatus.checkout_completed) :
    SessionInv (db ++ [o]) := by
  intro o' ho' hcc
  rcases List.mem_append.mp ho' with h1 | h1
  · exact h o' h1 hcc
  · have : o' = o := by simpa using h1
    subst this
    exact absurd hcc ho

theorem sessionInv_step {db : Db} (t : Trigger) (h : SessionInv db) :
    SessionInv (step db t) := by
  cases t with
  | webhook event =>
    simp only [step]
    unfold handleStripeWebhookEvent
    by_cases ht : event.type = "checkout.session.completed" ∨
        event.type = "checkout.session.async_payment_succeeded"
    · simp only [if_pos ht]
      cases href : sessionOrderRef event.session with
      | none => rw [handle_fulfill_noop_of_noref db href]; exact h
      | some orderId =>
        cases hord : getOrderById db orderId with
        | none => rw [handle_fulfill_noop_of_notfound href hord]; exact h
        | some order =>
          by_cases hps : event.session.payment_status = "unpaid"
          · rw [handle_fulfill_noop_of_unpaid href hord hps]; exact h
          · rw [handle_fulfill_of_found href hord hps]
            exact sessionInv_map_fulfillApply _ _ _ h
    · simp only [if_neg ht]; exact h
  | quickCheck env =>
    simp only [step]
    unfold quickCheckRoute createOrder
    have h0 : SessionInv (db ++ [⟨env.newOrderId, none, none, OrderStatus.created⟩]) :=
      sessionInv_append_created h (by simp)
    cases hu : env.uploadResult with
    | error e => exact h0
    | ok url =>
      by_cases hg : env.gcp.success = false
      · simp only [if_pos hg]
        refine sessionInv_updateOrderStatus ?_ (sessionInv_updateOrderStatus ?_ h0) <;> simp
      · simp only [if_neg hg]
        refine sessionInv_updateOrderStatus ?_ (sessionInv_updateOrderStatus ?_ h0) <;> simp
  | validate env orderId =>
    simp only [step]
    unfold validateRoute
    cases hord : getOrderById db orderId with
    | none => exact h
    | some order =>
      by_cases hg : env.gcp.success = false
      · simp only [if_pos hg]
        refine sessionInv_updateOrderStatus ?_ (sessionInv_updateOrderStatus ?_ h) <;> simp
      · simp only [if_neg hg]
        cases hs : env.signedUrlResult with
        | error e =>
          refine sessionInv_updateOrderStatus ?_ (sessionInv_updateOrderStatus ?_ h) <;> simp
        | ok url =>
          refine sessionInv_updateOrderStatus ?_ (sessionInv_updateOrderStatus ?_ h) <;> simp
  | checkout env orderId =>
    simp only [step]
    unfold createCheckoutSessionRoute
    cases orderId with
    | none => exact h
    | some oid =>
      by_cases he : oid = ""
      · simp only [if_pos he]; exact h
      · simp only [if_neg he]
        cases hord : getOrderById db oid with
        | none => exact h
        | some order =>
          by_cases hst : order.status = OrderStatus.validation_completed
          · simp only [hst, if_neg (by simp : ¬ OrderStatus.validation_completed ≠
              OrderStatus.validation_completed)]
            cases hc : env.createSessionResult with
            | error e => refine sessionInv_updateOrderStatus ?_ h; simp
            | ok url => refine sessionInv_updateOrderStatus ?_ h; simp
          · simp only [if_pos (by simpa using hst : order.status ≠
              OrderStatus.validation_completed)]
            exact h
  | approve env oid =>
    simp only [step]
    unfold approveOrder
    cases hord : getOrderById db oid with
    | none => exact h
    | some order =>
      by_cases hst : order.status = OrderStatus.checkout_completed
      · simp only [hst, if_neg (by simp : ¬ OrderStatus.checkout_completed ≠
          OrderStatus.checkout_completed)]
        cases hr : env.retrieveResult with
        | error e => exact h
        | ok ship =>
          cases ship with
          | none => exact h
          | some sh =>
            cases hs : env.signedUrlResult with
            | error e => refine sessionInv_updateOrderStatus ?_ h; simp
            | ok url =>
              cases hf : env.familinkResult with
              | error e => refine sessionInv_updateOrderStatus ?_ h; simp
              | ok u => refine sessionInv_updateOrderStatus ?_ h; simp
      · simp only [if_pos (by simpa using hst : order.status ≠
          OrderStatus.checkout_completed)]
        exact h
  | reject env oid reason =>
    simp only [step]
    unfold rejectOrder
    cases hord : getOrderById db oid with
    | none => exact h
    | some order =>
      by_cases hst : order.status = OrderStatus.checkout_completed
      · simp only [hst, if_neg (by simp : ¬ OrderStatus.checkout_completed ≠
          OrderStatus.checkout_completed)]
        cases hpi : order.stripePaymentIntentId with
        | none => exact h
        | some pival =>
          by_cases hpe : pival = ""
          · simp only [if_pos hpe]; exact h
          · simp only [if_neg hpe]
            cases hr : env.refundResult with
            | ok rid =>
              refine sessionInv_updateOrderStatus ?_ (sessionInv_updateOrderStatus ?_ h) <;> simp
            | error e =>
              refine sessionInv_updateOrderStatus ?_ (sessionInv_updateOrderStatus ?_ h) <;> simp
      · simp only [if_pos (by simpa using hst : order.status ≠
          OrderStatus.checkout_completed)]
        exact h

theorem sessionInv_run {db : Db} (ts : List Trigger) (h : SessionInv db) :
    SessionInv (run db ts) := by
  induction ts generalizing db with
  | nil => exact h
  | cons t ts ih => exact ih (sessionInv_step t h)

/-! ### Reaching familink_order_created forces a pass through checkout_completed -/

theorem statusOf_step_familink {db : Db} {t : Trigger} {i : String}
    (h : statusOf (step db t) i = some OrderStatus.familink_order_created) :
    statusOf db i = some OrderStatus.familink_order_created ∨
      statusOf db i = some OrderStatus.checkout_completed := by
  cases t with
  | webhook event =>
    simp only [step] at h
    rcases statusOf_webhook_cases db event i with h' | h'
    · left; rw [← h']; exact h
    · rw [h] at h'; exact absurd h' (by simp)
  | quickCheck env =>
    simp only [step] at h
    rcases statusOf_quickCheck_cases env db i with h' | h' | h' | h' | h'
    · left; rw [← h']; exact h
    all_goals rw [h] at h'; exact absurd h' (by simp)
  | validate env orderId =>
    simp only [step] at h
    rcases statusOf_validate_cases env db orderId i with h' | h' | h'
    · left; rw [← h']; exact h
    all_goals rw [h] at h'; exact absurd h' (by simp)
  | checkout env orderId =>
    simp only [step] at h
    rcases statusOf_checkout_cases env db orderId i with h' | h'
    · left; rw [← h']; exact h
    · rw [h] at h'; exact absurd h' (by simp)
  | approve env oid =>
    simp only [step] at h
    rcases statusOf_approve_cases env db oid i with h' | h' | hpair
    · left; rw [← h']; exact h
    · rw [h] at h'; exact absurd h' (by simp)
    · right; exact hpair.2
  | reject env oid reason =>
    simp only [step] at h
    rcases statusOf_reject_cases env db oid reason i with h' | h' | h'
    · left; rw [← h']; exact h
    all_goals rw [h] at h'; exact absurd h' (by simp)

theorem visits_of_run_familink {db : Db} {ts : List Trigger} {i : String}
    (h0 : statusOf db i ≠ some OrderStatus.familink_order_created)
    (h : statusOf (run db ts) i = some OrderStatus.familink_order_created) :
    visits db ts i OrderStatus.checkout_completed = true := by
  induction ts generalizing db with
  | nil => exact absurd h h0
  | cons t ts ih =>
    by_cases hstep : statusOf (step db t) i = some OrderStatus.familink_order_created
    · rcases statusOf_step_familink hstep with hbad | hcc
      · exact absurd hbad h0
      · unfold visits
        simp [hcc]
    · unfold visits
      have hrest : visits (step db t) ts i OrderStatus.checkout_completed = true :=
        ih hstep h
      simp [hrest]

/-! ### Further helper lemmas -/

theorem statusOf_found {db : Db} {i : String} {o : Order}
    (h : getOrderById db i = some o) : statusOf db i = some o.status := by
  unfold statusOf
  rw [h]
  rfl

theorem sessionOrderRef_client {session : CheckoutSession} {i : String}
    (h : session.client_reference_id = some i) (hne : i ≠ "") :
    sessionOrderRef session = some i := by
  unfold sessionOrderRef
  rw [h]
  simp [hne]

/-! ### Claim theorems -/

/-- C2 (confirmed): processing the same meaningful checkout webhook event a
second time leaves the order store exactly as the first processing left it —
same status, same `stripeSessionId`, same `stripePaymentIntentId` for every
order — so the replay performs no further transition and raises no error
(`handleStripeWebhookEvent` is a total function of the store and the
event). -/
theorem spec_c2_webhook_idempotent (db : Db) (event : StripeEvent) :
    handleStripeWebhookEvent (handleStripeWebhookEvent db event) event =
      handleStripeWebhookEvent db event := by
  unfold handleStripeWebhookEvent
  by_cases ht : event.type = "checkout.session.completed" ∨
      event.type = "checkout.session.async_payment_succeeded"
  · simp only [if_pos ht]
    exact handleCheckoutSessionFulfillment_idem db event.session
  · simp only [if_neg ht]

/-- C5 (confirmed): `approveOrder` is callable only from
`checkout_completed` — from any other current status it returns the exact
error outcome with the database untouched and no remote call issued — and
when the signed-URL fetch or the Familink submission fails, the order's
status becomes `familink_order_creation_failed`, never `checkout_completed`
again. -/
theorem spec_c5_approve_guarded (env : ApproveEnv) (db : Db) (oid : String)
    (o : Order) (hord : getOrderById db oid = some o) :
    (o.status ≠ OrderStatus.checkout_completed →
      approveOrder env db oid =
        ⟨db, some ("Order cannot be approved. Current status: " ++ o.status.name),
         []⟩) ∧
    (o.status = OrderStatus.checkout_completed →
      ∀ sh : ShippingMetadata, env.retrieveResult = Except.ok (some sh) →
        ((∀ e, env.signedUrlResult = Except.error e →
            statusOf (approveOrder env db oid).db oid =
                some OrderStatus.familink_order_creation_failed ∧
              (approveOrder env db oid).error.isSome = true) ∧
          (∀ url e, env.signedUrlResult = Except.ok url →
              env.familinkResult = Except.error e →
              statusOf (approveOrder env db oid).db oid =
                  some OrderStatus.familink_order_creation_failed ∧
                (approveOrder env db oid).error.isSome = true))) := by
  constructor
  · intro hst
    unfold approveOrder
    rw [hord]
    simp only [if_pos hst]
  · intro hst sh hr
    constructor
    · intro e hs
      unfold approveOrder
      rw [hord]
      simp only [hst, if_neg (by simp : ¬ OrderStatus.checkout_completed ≠
        OrderStatus.checkout_completed), hr, hs]
      constructor
      · rw [statusOf_updateOrderStatus]
        simp [statusOf_found hord]
      · rfl
    · intro url e hs hf
      unfold approveOrder
      rw [hord]
      simp only [hst, if_neg (by simp : ¬ OrderStatus.checkout_completed ≠
        OrderStatus.checkout_completed), hr, hs, hf]
      constructor
      · rw [statusOf_updateOrderStatus]
        simp [statusOf_found hord]
      · rfl

/-- C5 witness: a concrete order in `validation_completed` is rejected by
approval with no mutation, and a concrete `checkout_completed` order whose
Familink submission fails ends in `familink_order_creation_failed`. -/
theorem spec_c5_approve_guarded_witness :
    (getOrderById [⟨"o1", some "cs_1", some "pi_1", OrderStatus.validation_completed⟩]
        "o1" = some ⟨"o1", some "cs_1", some "pi_1", OrderStatus.validation_completed⟩) ∧
      (approveOrder
          ⟨Except.ok (some ⟨"A", "B", "addr", none, "city", "1000", none, "BE", none, none⟩),
           Except.ok "url", Except.error "printer down"⟩
          [⟨"o1", some "cs_1", some "pi_1", OrderStatus.validation_completed⟩] "o1" =
        ⟨[⟨"o1", some "cs_1", some "pi_1", OrderStatus.validation_completed⟩],
         some ("Order cannot be approved. Current status: " ++
           OrderStatus.validation_completed.name), []⟩) := by
  have h := spec_c5_approve_guarded
    ⟨Except.ok (some ⟨"A", "B", "addr", none, "city", "1000", none, "BE", none, none⟩),
     Except.ok "url", Except.error "printer down"⟩
    [⟨"o1", some "cs_1", some "pi_1", OrderStatus.validation_completed⟩] "o1"
    ⟨"o1", some "cs_1", some "pi_1", OrderStatus.validation_completed⟩ (by decide)
  exact ⟨by decide, h.1 (by decide)⟩

/-- C6 (confirmed): checkout-session creation is legal only from
`validation_completed` — any other status of an existing order yields a 400
with the database untouched and no gateway call — and when legal the status
is advanced to `checkout_started` strictly before the payment-gateway
session is created, as the ordered event trace shows. -/
theorem spec_c6_checkout_guarded (env : CheckoutEnv) (db : Db) (oid : String)
    (o : Order) (he : oid ≠ "") (hord : getOrderById db oid = some o) :
    (o.status ≠ OrderStatus.validation_completed →
      createCheckoutSessionRoute env db (some oid) =
        ⟨db, ⟨400, some "Order is not in a valid state for checkout"⟩, []⟩) ∧
    (o.status = OrderStatus.validation_completed →
      statusOf (createCheckoutSessionRoute env db (some oid)).db oid =
          some OrderStatus.checkout_started ∧
        (createCheckoutSessionRoute env db (some oid)).events =
          [CheckoutEv.statusWrite OrderStatus.checkout_started,
           CheckoutEv.stripeCreateSession]) := by
  have hid : o.id = oid := getOrderById_id hord
  constructor
  · intro hst
    unfold createCheckoutSessionRoute
    simp only [if_neg he]
    rw [hord]
    simp only [if_pos hst]
  · intro hst
    unfold createCheckoutSessionRoute
    simp only [if_neg he]
    rw [hord]
    simp only [hst, if_neg (by simp : ¬ OrderStatus.validation_completed ≠
      OrderStatus.validation_completed)]
    cases hc : env.createSessionResult with
    | error e =>
      constructor
      · rw [hid, statusOf_updateOrderStatus]
        simp [statusOf_found hord]
      · rfl
    | ok url =>
      constructor
      · rw [hid, statusOf_updateOrderStatus]
        simp [statusOf_found hord]
      · rfl

/-- C6 witness: a `quick_check_completed` order gets the 400 with no
mutation; a `validation_completed` order is advanced to `checkout_started`
with the status write ahead of the gateway call. -/
theorem spec_c6_checkout_guarded_witness :
    (("o1" : String) ≠ "" ∧
      getOrderById [⟨"o1", none, none, OrderStatus.quick_check_completed⟩] "o1" =
        some ⟨"o1", none, none, OrderStatus.quick_check_completed⟩) ∧
      (createCheckoutSessionRoute ⟨Except.ok "https://pay"⟩
          [⟨"o1", none, none, OrderStatus.quick_check_completed⟩] (some "o1") =
        ⟨[⟨"o1", none, none, OrderStatus.quick_check_completed⟩],
         ⟨400, some "Order is not in a valid state for checkout"⟩, []⟩) := by
  have h := spec_c6_checkout_guarded ⟨Except.ok "https://pay"⟩
    [⟨"o1", none, none, OrderStatus.quick_check_completed⟩] "o1"
    ⟨"o1", none, none, OrderStatus.quick_check_completed⟩ (by decide) (by decide)
  exact ⟨⟨by decide, by decide⟩, h.1 (by decide)⟩

/-- C7 (confirmed): a completed reject of a `checkout_completed` order with
payment information always ends in `refund_succeeded` (refund call
succeeded) or `refund_failed` (refund call threw), never in the
intermediate `rejected` status. -/
theorem spec_c7_reject_terminal (env : RejectEnv) (db : Db) (oid reason : String)
    (o : Order) (p : String) (hord : getOrderById db oid = some o)
    (hst : o.status = OrderStatus.checkout_completed)
    (hpi : o.stripePaymentIntentId = some p) (hp : p ≠ "") :
    ((env.refundResult.isOk = true →
        statusOf (rejectOrder env db oid reason).db oid =
          some OrderStatus.refund_succeeded) ∧
      (env.refundResult.isOk = false →
        statusOf (rejectOrder env db oid reason).db oid =
          some OrderStatus.refund_failed)) ∧
      statusOf (rejectOrder env db oid reason).db oid ≠
        some OrderStatus.rejected := by
  have hbase : ∀ s : OrderStatus,
      statusOf (updateOrderStatus (updateOrderStatus db oid OrderStatus.rejected)
        oid s) oid = some s := by
    intro s
    rw [statusOf_updateOrderStatus, statusOf_updateOrderStatus]
    simp [statusOf_found hord]
  unfold rejectOrder
  rw [hord]
  simp only [hst, if_neg (by simp : ¬ OrderStatus.checkout_completed ≠
    OrderStatus.checkout_completed), hpi, if_neg hp]
  cases hr : env.refundResult with
  | ok rid =>
    refine ⟨⟨fun _ => ?_, fun hcontra => ?_⟩, ?_⟩
    · exact hbase OrderStatus.refund_succeeded
    · simp [Except.isOk, Except.toBool] at hcontra
    · rw [hbase OrderStatus.refund_succeeded]
      simp
  | error e =>
    refine ⟨⟨fun hcontra => ?_, fun _ => ?_⟩, ?_⟩
    · simp [Except.isOk, Except.toBool] at hcontra
    · exact hbase OrderStatus.refund_failed
    · rw [hbase OrderStatus.refund_failed]
      simp

/-- C7 witness: a concrete `checkout_completed` order whose refund call
throws ends in `refund_failed`, not `rejected`. -/
theorem spec_c7_reject_terminal_witness :
    (getOrderById [⟨"o1", some "cs_1", some "pi_1", OrderStatus.checkout_completed⟩]
          "o1" = some ⟨"o1", some "cs_1", some "pi_1", OrderStatus.checkout_completed⟩ ∧
        OrderStatus.checkout_completed = OrderStatus.checkout_completed ∧
        (some "pi_1" : Option String) = some "pi_1" ∧ ("pi_1" : String) ≠ "") ∧
      (statusOf (rejectOrder ⟨Except.error "card gone"⟩
            [⟨"o1", some "cs_1", some "pi_1", OrderStatus.checkout_completed⟩]
            "o1" "blurry").db "o1" = some OrderStatus.refund_failed ∧
        statusOf (rejectOrder ⟨Except.error "card gone"⟩
            [⟨"o1", some "cs_1", some "pi_1", OrderStatus.checkout_completed⟩]
            "o1" "blurry").db "o1" ≠ some OrderStatus.rejected) := by
  have h := spec_c7_reject_terminal ⟨Except.error "card gone"⟩
    [⟨"o1", some "cs_1", some "pi_1", OrderStatus.checkout_completed⟩] "o1" "blurry"
    ⟨"o1", some "cs_1", some "pi_1", OrderStatus.checkout_completed⟩ "pi_1"
    (by decide) (by decide) (by decide) (by decide)
  exact ⟨⟨by decide, by decide, by decide, by decide⟩,
    ⟨h.1.2 (by decide), h.2⟩⟩

/-- C10 (confirmed): the webhook route answers 400 with no state change when
the signature header is missing, empty, or fails verification; when the
signature verifies it answers 200 `{received:true}` unconditionally — the
fulfillment handler is dispatched without being awaited, so neither its
outcome nor its failure can alter the response the sender sees. -/
theorem spec_c10_webhook_ack (env : WebhookEnv) (db : Db) :
    (stripeWebhookRoute env db none =
        (db, ⟨400, false, some "No signature provided"⟩)) ∧
      (stripeWebhookRoute env db (some "") =
        (db, ⟨400, false, some "No signature provided"⟩)) ∧
      (∀ s : String, s ≠ "" → ∀ e, env.verifiedEvent = Except.error e →
        stripeWebhookRoute env db (some s) =
          (db, ⟨400, false, some "Webhook signature verification failed"⟩)) ∧
      (∀ s : String, s ≠ "" → ∀ ev, env.verifiedEvent = Except.ok ev →
        (stripeWebhookRoute env db (some s)).2 = ⟨200, true, none⟩) := by
  refine ⟨rfl, ?_, ?_, ?_⟩
  · unfold stripeWebhookRoute
    simp
  · intro s hs e he
    unfold stripeWebhookRoute
    simp only [if_neg hs, he]
  · intro s hs ev hev
    unfold stripeWebhookRoute
    simp only [if_neg hs, hev]

/-- C10 witness: with a valid signature over a concrete event the response
is 200 `{received:true}` even though the dispatched handler crashes, and a
missing signature gives the 400 with the store untouched. -/
theorem spec_c10_webhook_ack_witness :
    (stripeWebhookRoute
        ⟨Except.ok ⟨"evt_1", "checkout.session.completed",
          ⟨"cs_1", some "o1", none, "paid", some "pi_1"⟩⟩, true⟩
        [⟨"o1", none, none, OrderStatus.checkout_started⟩] none =
      ([⟨"o1", none, none, OrderStatus.checkout_started⟩],
       ⟨400, false, some "No signature provided"⟩)) ∧
      (("sig" : String) ≠ "" ∧
        (stripeWebhookRoute
            ⟨Except.ok ⟨"evt_1", "checkout.session.completed",
              ⟨"cs_1", some "o1", none, "paid", some "pi_1"⟩⟩, true⟩
            [⟨"o1", none, none, OrderStatus.checkout_started⟩] (some "sig")).2 =
          ⟨200, true, none⟩) := by
  have h := spec_c10_webhook_ack
    ⟨Except.ok ⟨"evt_1", "checkout.session.completed",
      ⟨"cs_1", some "o1", none, "paid", some "pi_1"⟩⟩, true⟩
    [⟨"o1", none, none, OrderStatus.checkout_started⟩]
  exact ⟨h.1, by decide,
    h.2.2.2 "sig" (by decide)
      ⟨"evt_1", "checkout.session.completed",
        ⟨"cs_1", some "o1", none, "paid", some "pi_1"⟩⟩ rfl⟩

/-- C1 (corrected — counterexample): the claim fails on the code: a validate
call on an order in `quick_check_failed` is not rejected but advances it
(here to `validation_completed` with a 200 response), and a
checkout-completed webhook for an order already in `familink_order_created`
moves it back to `checkout_completed`. -/
theorem spec_c1_counterexample :
    (statusOf (validateRoute ⟨⟨true, ⟨true, 1, "ok"⟩, none⟩, Except.ok "u"⟩
          [⟨"w1", none, none, OrderStatus.quick_check_failed⟩] "w1").1 "w1" =
        some OrderStatus.validation_completed ∧
      (validateRoute ⟨⟨true, ⟨true, 1, "ok"⟩, none⟩, Except.ok "u"⟩
          [⟨"w1", none, none, OrderStatus.quick_check_failed⟩] "w1").2.statusCode =
        200) ∧
      statusOf
          (handleStripeWebhookEvent
            [⟨"w2", some "cs_0", some "pi_0", OrderStatus.familink_order_created⟩]
            ⟨"evt_1", "checkout.session.completed",
              ⟨"cs_9", some "w2", none, "paid", some "pi_9"⟩⟩) "w2" =
        some OrderStatus.checkout_completed := by
  refine ⟨⟨?_, ?_⟩, ?_⟩ <;> decide

/-- C1 (corrected — amended): only the checkout endpoint and the admin
approve/reject actions check the order's current persisted status and
reject a mismatch without mutating or calling out; the webhook fulfillment
handler and the validate endpoint apply their writes without any current-
status check — validate advances any found order to `validation_started`
and then `validation_failed`/`validation_completed` per the remote result,
and a paid checkout webhook for any found order sets `checkout_completed`
even from later states. -/
theorem spec_c1_amended :
    (∀ (env : CheckoutEnv) (db : Db) (oid : String) (o : Order), oid ≠ "" →
        getOrderById db oid = some o →
        o.status ≠ OrderStatus.validation_completed →
        (createCheckoutSessionRoute env db (some oid)).db = db ∧
          (createCheckoutSessionRoute env db (some oid)).resp.statusCode = 400 ∧
          (createCheckoutSessionRoute env db (some oid)).events = []) ∧
      (∀ (env : ApproveEnv) (db : Db) (oid : String) (o : Order),
        getOrderById db oid = some o →
        o.status ≠ OrderStatus.checkout_completed →
        (approveOrder env db oid).db = db ∧
          (approveOrder env db oid).error.isSome = true ∧
          (approveOrder env db oid).calls = []) ∧
      (∀ (env : RejectEnv) (db : Db) (oid reason : String) (o : Order),
        getOrderById db oid = some o →
        o.status ≠ OrderStatus.checkout_completed →
        (rejectOrder env db oid reason).db = db ∧
          (rejectOrder env db oid reason).error.isSome = true ∧
          (rejectOrder env db oid reason).calls = []) ∧
      (∀ (env : ValidateEnv) (db : Db) (oid : String) (o : Order),
        getOrderById db oid = some o →
        statusOf (validateRoute env db oid).1 oid =
          some (if env.gcp.success = false then OrderStatus.validation_failed
                else OrderStatus.validation_completed)) ∧
      (∀ (db : Db) (event : StripeEvent) (oid : String) (o : Order),
        event.type = "checkout.session.completed" →
        event.session.client_reference_id = some oid → oid ≠ "" →
        getOrderById db oid = some o →
        event.session.payment_status ≠ "unpaid" →
        statusOf (handleStripeWebhookEvent db event) oid =
          some OrderStatus.checkout_completed) := by
  refine ⟨?_, ?_, ?_, ?_, ?_⟩
  · intro env db oid o he hord hst
    unfold createCheckoutSessionRoute
    simp only [if_neg he]
    rw [hord]
    simp only [if_pos hst]
    refine ⟨?_, ?_, ?_⟩ <;> trivial
  · intro env db oid o hord hst
    unfold approveOrder
    rw [hord]
    simp only [if_pos hst]
    refine ⟨?_, ?_, ?_⟩ <;> trivial
  · intro env db oid reason o hord hst
    unfold rejectOrder
    rw [hord]
    simp only [if_pos hst]
    refine ⟨?_, ?_, ?_⟩ <;> trivial
  · intro env db oid o hord
    have hid : o.id = oid := getOrderById_id hord
    unfold validateRoute
    rw [hord]
    dsimp only
    by_cases hg : env.gcp.success = false
    · rw [if_pos hg, if_pos hg]
      dsimp only
      rw [hid, statusOf_updateOrderStatus, statusOf_updateOrderStatus]
      simp [statusOf_found hord]
    · rw [if_neg hg, if_neg hg]
      cases hs : env.signedUrlResult with
      | error e =>
        dsimp only
        rw [hid, statusOf_updateOrderStatus, statusOf_updateOrderStatus]
        simp [statusOf_found hord]
      | ok url =>
        dsimp only
        rw [hid, statusOf_updateOrderStatus, statusOf_updateOrderStatus]
        simp [statusOf_found hord]
  · intro db event oid o ht hcr hne hord hps
    have hid : o.id = oid := getOrderById_id hord
    unfold handleStripeWebhookEvent
    rw [if_pos (Or.inl ht)]
    rw [handle_fulfill_of_found (sessionOrderRef_client hcr hne) hord hps]
    unfold statusOf
    rw [getOrderById_map db _ (fun x => fulfillApply_id _ _ _ x) oid, hord]
    simp [fulfillApply, hid]

/-- C1 witness: the amended statement applied to concrete databases — a
`checkout_started` order cannot start checkout again, approval and
rejection of a `validation_completed` order are refused without calls, a
found order is advanced by validate, and a paid webhook marks a
`checkout_started` order `checkout_completed`. -/
theorem spec_c1_amended_witness :
    (("o1" : String) ≠ "" ∧
        (createCheckoutSessionRoute ⟨Except.ok "https://pay"⟩
            [⟨"o1", none, none, OrderStatus.checkout_started⟩] (some "o1")).db =
          [⟨"o1", none, none, OrderStatus.checkout_started⟩]) ∧
      (approveOrder ⟨Except.ok none, Except.ok "u", Except.ok ()⟩
          [⟨"o1", none, none, OrderStatus.validation_completed⟩] "o1").calls = [] ∧
      (rejectOrder ⟨Except.ok "re_1"⟩
          [⟨"o1", none, none, OrderStatus.validation_completed⟩] "o1" "r").calls = [] ∧
      statusOf (validateRoute ⟨⟨true, ⟨true, 1, "ok"⟩, none⟩, Except.ok "u"⟩
          [⟨"o1", none, none, OrderStatus.created⟩] "o1").1 "o1" =
        some OrderStatus.validation_completed ∧
      statusOf
          (handleStripeWebhookEvent [⟨"o1", none, none, OrderStatus.checkout_started⟩]
            ⟨"evt_1", "checkout.session.completed",
              ⟨"cs_1", some "o1", none, "paid", some "pi_1"⟩⟩) "o1" =
        some OrderStatus.checkout_completed := by
  refine ⟨⟨by decide, ?_⟩, ?_, ?_, ?_, ?_⟩
  · exact (spec_c1_amended.1 ⟨Except.ok "https://pay"⟩
      [⟨"o1", none, none, OrderStatus.checkout_started⟩] "o1"
      ⟨"o1", none, none, OrderStatus.checkout_started⟩
      (by decide) (by decide) (by decide)).1
  · exact (spec_c1_amended.2.1 ⟨Except.ok none, Except.ok "u", Except.ok ()⟩
      [⟨"o1", none, none, OrderStatus.validation_completed⟩] "o1"
      ⟨"o1", none, none, OrderStatus.validation_completed⟩
      (by decide) (by decide)).2.2
  · exact (spec_c1_amended.2.2.1 ⟨Except.ok "re_1"⟩
      [⟨"o1", none, none, OrderStatus.validation_completed⟩] "o1" "r"
      ⟨"o1", none, none, OrderStatus.validation_completed⟩
      (by decide) (by decide)).2.2
  · exact spec_c1_amended.2.2.2.1 ⟨⟨true, ⟨true, 1, "ok"⟩, none⟩, Except.ok "u"⟩
      [⟨"o1", none, none, OrderStatus.created⟩] "o1"
      ⟨"o1", none, none, OrderStatus.created⟩ (by decide)
  · exact spec_c1_amended.2.2.2.2
      [⟨"o1", none, none, OrderStatus.checkout_started⟩]
      ⟨"evt_1", "checkout.session.completed",
        ⟨"cs_1", some "o1", none, "paid", some "pi_1"⟩⟩ "o1"
      ⟨"o1", none, none, OrderStatus.checkout_started⟩
      rfl rfl (by decide) (by decide) (by decide)

/-- C3 (corrected — counterexample): a paid checkout webhook whose session
carries no `payment_intent` still marks the order `checkout_completed` with
`stripePaymentIntentId` left null — the handler guards the payment-intent
write with `if (session.payment_intent)` but sets the status
unconditionally, so "checkout_completed implies stripePaymentIntentId set"
fails on the code. -/
theorem spec_c3_counterexample :
    statusOf
        (handleStripeWebhookEvent [⟨"c3", none, none, OrderStatus.checkout_started⟩]
          ⟨"evt_1", "checkout.session.completed",
            ⟨"cs_1", some "c3", none, "paid", none⟩⟩) "c3" =
      some OrderStatus.checkout_completed ∧
    paymentIntentOf
        (handleStripeWebhookEvent [⟨"c3", none, none, OrderStatus.checkout_started⟩]
          ⟨"evt_1", "checkout.session.completed",
            ⟨"cs_1", some "c3", none, "paid", none⟩⟩) "c3" =
      none := by
  exact ⟨by decide, by decide⟩

/-- C3 (corrected — amended): across every sequence of triggers, an order in
`checkout_completed` always has its `stripeSessionId` set (provided no
initial order violates this), and its `stripePaymentIntentId` is set
whenever the fulfilling session carried a non-empty `payment_intent`; an
order observed in `familink_order_created` that did not start there passed
through `checkout_completed` at some earlier point of the run. -/
theorem spec_c3_amended :
    (∀ (db : Db) (ts : List Trigger), SessionInv db → SessionInv (run db ts)) ∧
      (∀ (db : Db) (ts : List Trigger) (i : String),
        statusOf db i ≠ some OrderStatus.familink_order_created →
        statusOf (run db ts) i = some OrderStatus.familink_order_created →
        visits db ts i OrderStatus.checkout_completed = true) ∧
      (∀ (db : Db) (event : StripeEvent) (oid p : String) (o : Order),
        event.type = "checkout.session.completed" →
        event.session.client_reference_id = some oid → oid ≠ "" →
        getOrderById db oid = some o →
        event.session.payment_status ≠ "unpaid" →
        event.session.payment_intent = some p → p ≠ "" →
        statusOf (handleStripeWebhookEvent db event) oid =
            some OrderStatus.checkout_completed ∧
          paymentIntentOf (handleStripeWebhookEvent db event) oid = some p ∧
          sessionIdOf (handleStripeWebhookEvent db event) oid =
            some event.session.id) := by
  refine ⟨?_, ?_, ?_⟩
  · intro db ts h
    exact sessionInv_run ts h
  · intro db ts i h0 h
    exact visits_of_run_familink h0 h
  · intro db event oid p o ht hcr hne hord hps hpi hp
    have hid : o.id = oid := getOrderById_id hord
    have hstep : handleStripeWebhookEvent db event =
        db.map (fulfillApply o.id event.session.id
          (effectivePaymentIntent event.session)) := by
      unfold handleStripeWebhookEvent
      rw [if_pos (Or.inl ht)]
      exact handle_fulfill_of_found (sessionOrderRef_client hcr hne) hord hps
    have heff : effectivePaymentIntent event.session = some p := by
      unfold effectivePaymentIntent
      rw [hpi]
      simp [hp]
    refine ⟨?_, ?_, ?_⟩
    · rw [hstep]
      unfold statusOf
      rw [getOrderById_map db _ (fun x => fulfillApply_id _ _ _ x) oid, hord]
      simp [fulfillApply, hid]
    · rw [hstep]
      unfold paymentIntentOf
      rw [getOrderById_map db _ (fun x => fulfillApply_id _ _ _ x) oid, hord]
      simp [fulfillApply, hid, heff]
    · rw [hstep]
      unfold sessionIdOf
      rw [getOrderById_map db _ (fun x => fulfillApply_id _ _ _ x) oid, hord]
      simp [fulfillApply, hid]

/-- C3 witness: from a store holding one `checkout_completed` order with its
session id set, an approve run preserves the session invariant and the
reached `familink_order_created` is preceded by a visit to
`checkout_completed`; the paid-webhook conjunct is instanced on a
`checkout_started` order and a session carrying `pi_1`. -/
theorem spec_c3_amended_witness :
    (SessionInv [⟨"o1", some "cs_1", some "pi_1", OrderStatus.checkout_completed⟩] ∧
        SessionInv
          (run [⟨"o1", some "cs_1", some "pi_1", OrderStatus.checkout_completed⟩]
            [Trigger.approve
              ⟨Except.ok (some ⟨"A", "B", "addr", none, "city", "1000", none, "BE",
                none, none⟩), Except.ok "url", Except.ok ()⟩ "o1"])) ∧
      visits [⟨"o1", some "cs_1", some "pi_1", OrderStatus.checkout_completed⟩]
          [Trigger.approve
            ⟨Except.ok (some ⟨"A", "B", "addr", none, "city", "1000", none, "BE",
              none, none⟩), Except.ok "url", Except.ok ()⟩ "o1"] "o1"
          OrderStatus.checkout_completed = true ∧
      paymentIntentOf
          (handleStripeWebhookEvent [⟨"o2", none, none, OrderStatus.checkout_started⟩]
            ⟨"evt_1", "checkout.session.completed",
              ⟨"cs_2", some "o2", none, "paid", some "pi_2"⟩⟩) "o2" =
        some "pi_2" := by
  have hinv : SessionInv
      [⟨"o1", some "cs_1", some "pi_1", OrderStatus.checkout_completed⟩] := by
    intro o ho hst
    simp only [List.mem_singleton] at ho
    subst ho
    simp
  refine ⟨⟨hinv, ?_⟩, ?_, ?_⟩
  · exact spec_c3_amended.1
      [⟨"o1", some "cs_1", some "pi_1", OrderStatus.checkout_completed⟩]
      [Trigger.approve
        ⟨Except.ok (some ⟨"A", "B", "addr", none, "city", "1000", none, "BE",
          none, none⟩), Except.ok "url", Except.ok ()⟩ "o1"] hinv
  · exact spec_c3_amended.2.1
      [⟨"o1", some "cs_1", some "pi_1", OrderStatus.checkout_completed⟩]
      [Trigger.approve
        ⟨Except.ok (some ⟨"A", "B", "addr", none, "city", "1000", none, "BE",
          none, none⟩), Except.ok "url", Except.ok ()⟩ "o1"] "o1"
      (by decide) (by decide)
  · exact (spec_c3_amended.2.2
      [⟨"o2", none, none, OrderStatus.checkout_started⟩]
      ⟨"evt_1", "checkout.session.completed",
        ⟨"cs_2", some "o2", none, "paid", some "pi_2"⟩⟩ "o2" "pi_2"
      ⟨"o2", none, none, OrderStatus.checkout_started⟩
      rfl rfl (by decide) (by decide) (by decide) rfl (by decide)).2.1

/-- C4 (corrected — counterexample): on a two-face image that the remote
service processes successfully (spec-modelled `twoFaceGcpResult`), the
quick-check endpoint answers `{success: true, faceCount: 2}` — not
`{success: false, faceCount: 2}` — and persists `quick_check_completed`,
not `quick_check_failed`; and even an order that is in `quick_check_failed`
is happily advanced by a subsequent validate call. -/
theorem spec_c4_counterexample :
    ((quickCheckRoute ⟨"q1", Except.ok "https://img", twoFaceGcpResult⟩ []).2 =
        ⟨200, true, some 2, some "Expected 1 face, found 2", some "https://img",
         some "q1", none⟩ ∧
      statusOf (quickCheckRoute ⟨"q1", Except.ok "https://img", twoFaceGcpResult⟩
          []).1 "q1" = some OrderStatus.quick_check_completed) ∧
      (statusOf (validateRoute ⟨⟨true, ⟨true, 1, "ok"⟩, none⟩, Except.ok "u"⟩
            [⟨"q2", none, none, OrderStatus.quick_check_failed⟩] "q2").1 "q2" =
          some OrderStatus.validation_completed ∧
        (validateRoute ⟨⟨true, ⟨true, 1, "ok"⟩, none⟩, Except.ok "u"⟩
            [⟨"q2", none, none, OrderStatus.quick_check_failed⟩] "q2").2.statusCode =
          200) := by
  refine ⟨⟨?_, ?_⟩, ?_, ?_⟩ <;> decide

/-- C4 (corrected — amended): when the remote call returns ok the endpoint
answers `{success: true, faceCount}` — whatever the reported face count —
and persists `quick_check_completed`; only a failed remote call produces
`{success: false}` (with no face count) and `quick_check_failed`; and in
either case a later validate call on the order proceeds, since the validate
endpoint checks no status. -/
theorem spec_c4_amended :
    (∀ (env : QuickCheckEnv) (db : Db), env.gcp.success = true →
        ∀ url, env.uploadResult = Except.ok url →
        getOrderById db env.newOrderId = none →
        (quickCheckRoute env db).2.success = true ∧
          (quickCheckRoute env db).2.faceCount = some env.gcp.data.face_count ∧
          statusOf (quickCheckRoute env db).1 env.newOrderId =
            some OrderStatus.quick_check_completed) ∧
      (∀ (env : QuickCheckEnv) (db : Db), env.gcp.success = false →
        ∀ url, env.uploadResult = Except.ok url →
        getOrderById db env.newOrderId = none →
        (quickCheckRoute env db).2.success = false ∧
          (quickCheckRoute env db).2.faceCount = none ∧
          statusOf (quickCheckRoute env db).1 env.newOrderId =
            some OrderStatus.quick_check_failed) ∧
      (∀ (env : ValidateEnv) (db : Db) (oid : String) (o : Order),
        getOrderById db oid = some o →
        o.status = OrderStatus.quick_check_failed →
        statusOf (validateRoute env db oid).1 oid =
          some (if env.gcp.success = false then OrderStatus.validation_failed
                else OrderStatus.validation_completed)) := by
  refine ⟨?_, ?_, ?_⟩
  · intro env db hg url hu hfresh
    have hbase : statusOf (db ++ [⟨env.newOrderId, none, none, OrderStatus.created⟩])
        env.newOrderId = some OrderStatus.created := by
      unfold statusOf
      rw [getOrderById_append_single, hfresh]
      simp
    unfold quickCheckRoute createOrder
    rw [hu]
    dsimp only
    rw [if_neg (by simp [hg])]
    refine ⟨rfl, rfl, ?_⟩
    dsimp only
    rw [statusOf_updateOrderStatus, statusOf_updateOrderStatus]
    simp [hbase]
  · intro env db hg url hu hfresh
    have hbase : statusOf (db ++ [⟨env.newOrderId, none, none, OrderStatus.created⟩])
        env.newOrderId = some OrderStatus.created := by
      unfold statusOf
      rw [getOrderById_append_single, hfresh]
      simp
    unfold quickCheckRoute createOrder
    rw [hu]
    dsimp only
    rw [if_pos hg]
    refine ⟨rfl, rfl, ?_⟩
    dsimp only
    rw [statusOf_updateOrderStatus, statusOf_updateOrderStatus]
    simp [hbase]
  · intro env db oid o hord hst
    have hid : o.id = oid := getOrderById_id hord
    unfold validateRoute
    rw [hord]
    dsimp only
    by_cases hg : env.gcp.success = false
    · rw [if_pos hg, if_pos hg]
      dsimp only
      rw [hid, statusOf_updateOrderStatus, statusOf_updateOrderStatus]
      simp [statusOf_found hord]
    · rw [if_neg hg, if_neg hg]
      cases hs : env.signedUrlResult with
      | error e =>
        dsimp only
        rw [hid, statusOf_updateOrderStatus, statusOf_updateOrderStatus]
        simp [statusOf_found hord]
      | ok url =>
        dsimp only
        rw [hid, statusOf_updateOrderStatus, statusOf_updateOrderStatus]
        simp [statusOf_found hord]

/-- C4 witness: the amended statement instanced on the two-face remote
result over an empty store, on a failing remote call, and on a concrete
`quick_check_failed` order that validate then advances. -/
theorem spec_c4_amended_witness :
    (twoFaceGcpResult.success = true ∧
        (quickCheckRoute ⟨"q1", Except.ok "https://img", twoFaceGcpResult⟩
            []).2.faceCount = some 2) ∧
      ((quickCheckRoute ⟨"q1", Except.ok "https://img",
            ⟨false, ⟨false, 0, ""⟩, some "GCP Run request failed: 500"⟩⟩ []).2.success =
          false ∧
        statusOf (quickCheckRoute ⟨"q1", Except.ok "https://img",
            ⟨false, ⟨false, 0, ""⟩, some "GCP Run request failed: 500"⟩⟩ []).1 "q1" =
          some OrderStatus.quick_check_failed) ∧
      statusOf (validateRoute ⟨⟨true, ⟨true, 1, "ok"⟩, none⟩, Except.ok "u"⟩
          [⟨"q2", none, none, OrderStatus.quick_check_failed⟩] "q2").1 "q2" =
        some OrderStatus.validation_completed := by
  refine ⟨⟨by decide, ?_⟩, ⟨?_, ?_⟩, ?_⟩
  · exact (spec_c4_amended.1 ⟨"q1", Except.ok "https://img", twoFaceGcpResult⟩ []
      (by decide) "https://img" rfl (by decide)).2.1
  · exact (spec_c4_amended.2.1 ⟨"q1", Except.ok "https://img",
      ⟨false, ⟨false, 0, ""⟩, some "GCP Run request failed: 500"⟩⟩ []
      (by decide) "https://img" rfl (by decide)).1
  · exact (spec_c4_amended.2.1 ⟨"q1", Except.ok "https://img",
      ⟨false, ⟨false, 0, ""⟩, some "GCP Run request failed: 500"⟩⟩ []
      (by decide) "https://img" rfl (by decide)).2.2
  · have h := spec_c4_amended.2.2 ⟨⟨true, ⟨true, 1, "ok"⟩, none⟩, Except.ok "u"⟩
      [⟨"q2", none, none, OrderStatus.quick_check_failed⟩] "q2"
      ⟨"q2", none, none, OrderStatus.quick_check_failed⟩ (by decide) (by decide)
    simpa using h

/-- C8 (corrected — counterexample): an order in `checkout_completed` whose
`stripePaymentIntentId` is absent is approved without any error — the
approve action issues its remote calls and transitions the order to
`familink_order_created` — so "each of these actions fails before any
remote side effect or status change when the payment intent is absent" is
false for approve. -/
theorem spec_c8_counterexample :
    (approveOrder
          ⟨Except.ok (some ⟨"A", "B", "addr", none, "city", "1000", none, "BE",
            none, none⟩), Except.ok "url", Except.ok ()⟩
          [⟨"o8", some "cs_8", none, OrderStatus.checkout_completed⟩] "o8").error =
        none ∧
      statusOf (approveOrder
          ⟨Except.ok (some ⟨"A", "B", "addr", none, "city", "1000", none, "BE",
            none, none⟩), Except.ok "url", Except.ok ()⟩
          [⟨"o8", some "cs_8", none, OrderStatus.checkout_completed⟩] "o8").db "o8" =
        some OrderStatus.familink_order_created ∧
      (approveOrder
          ⟨Except.ok (some ⟨"A", "B", "addr", none, "city", "1000", none, "BE",
            none, none⟩), Except.ok "url", Except.ok ()⟩
          [⟨"o8", some "cs_8", none, OrderStatus.checkout_completed⟩] "o8").calls ≠
        [] := by
  refine ⟨?_, ?_, ?_⟩ <;> decide

/-- C8 (corrected — amended): only the reject action requires
`stripePaymentIntentId` — when it is absent the rejection fails with the
exact error outcome, before any status change or remote call; the approve
action never examines `stripePaymentIntentId` (it keys the session lookup
on `stripeSessionId`) and, with the remote calls succeeding, completes the
fulfillment even when the payment intent is absent. -/
theorem spec_c8_amended :
    (∀ (env : RejectEnv) (db : Db) (oid reason : String) (o : Order),
        getOrderById db oid = some o →
        o.status = OrderStatus.checkout_completed →
        o.stripePaymentIntentId = none →
        rejectOrder env db oid reason =
          ⟨db, some "Order missing payment information", []⟩) ∧
      (∀ (env : ApproveEnv) (db : Db) (oid : String) (o : Order)
          (sh : ShippingMetadata) (url : String),
        getOrderById db oid = some o →
        o.status = OrderStatus.checkout_completed →
        env.retrieveResult = Except.ok (some sh) →
        env.signedUrlResult = Except.ok url →
        env.familinkResult = Except.ok () →
        (approveOrder env db oid).error = none ∧
          statusOf (approveOrder env db oid).db oid =
            some OrderStatus.familink_order_created ∧
          (approveOrder env db oid).calls =
            [RemoteCall.retrieveSession o.stripeSessionId,
             RemoteCall.getSignedUrl oid "validated.jpg",
             RemoteCall.createFamilinkOrder oid]) := by
  constructor
  · intro env db oid reason o hord hst hpi
    unfold rejectOrder
    rw [hord]
    simp only [hst, if_neg (by simp : ¬ OrderStatus.checkout_completed ≠
      OrderStatus.checkout_completed), hpi]
  · intro env db oid o sh url hord hst hr hs hf
    unfold approveOrder
    rw [hord]
    simp only [hst, if_neg (by simp : ¬ OrderStatus.checkout_completed ≠
      OrderStatus.checkout_completed), hr, hs, hf]
    refine ⟨by trivial, ?_, by trivial⟩
    rw [statusOf_updateOrderStatus]
    simp [statusOf_found hord]

/-- C8 witness: the reject side on a concrete `checkout_completed` order
without payment information, and the approve side on the same shape of
order completing regardless. -/
theorem spec_c8_amended_witness :
    (rejectOrder ⟨Except.ok "re_1"⟩
        [⟨"o8", some "cs_8", none, OrderStatus.checkout_completed⟩] "o8" "bad" =
      ⟨[⟨"o8", some "cs_8", none, OrderStatus.checkout_completed⟩],
       some "Order missing payment information", []⟩) ∧
      statusOf (approveOrder
          ⟨Except.ok (some ⟨"A", "B", "addr", none, "city", "1000", none, "BE",
            none, none⟩), Except.ok "url", Except.ok ()⟩
          [⟨"o8", some "cs_8", none, OrderStatus.checkout_completed⟩] "o8").db "o8" =
        some OrderStatus.familink_order_created := by
  constructor
  · exact spec_c8_amended.1 ⟨Except.ok "re_1"⟩
      [⟨"o8", some "cs_8", none, OrderStatus.checkout_completed⟩] "o8" "bad"
      ⟨"o8", some "cs_8", none, OrderStatus.checkout_completed⟩
      (by decide) (by decide) (by decide)
  · exact (spec_c8_amended.2
      ⟨Except.ok (some ⟨"A", "B", "addr", none, "city", "1000", none, "BE",
        none, none⟩), Except.ok "url", Except.ok ()⟩
      [⟨"o8", some "cs_8", none, OrderStatus.checkout_completed⟩] "o8"
      ⟨"o8", some "cs_8", none, OrderStatus.checkout_completed⟩
      ⟨"A", "B", "addr", none, "city", "1000", none, "BE", none, none⟩ "url"
      (by decide) (by decide) rfl rfl rfl).2.1

/-- C9 (corrected — counterexample): the rejection reason is not set on the
order record — the orders table has no rejection-reason column and
`rejectOrder` only forwards the reason to the refund call — so the final
database after rejecting with "Background incorrect" is identical to the
database after rejecting with any other reason, even though the refund
failed and the order ended in `refund_failed`. -/
theorem spec_c9_counterexample :
    (rejectOrder ⟨Except.error "gateway down"⟩
          [⟨"o9", some "cs_9", some "pi_9", OrderStatus.checkout_completed⟩]
          "o9" "Background incorrect").db =
        (rejectOrder ⟨Except.error "gateway down"⟩
          [⟨"o9", some "cs_9", some "pi_9", OrderStatus.checkout_completed⟩]
          "o9" "a completely different reason").db ∧
      statusOf (rejectOrder ⟨Except.error "gateway down"⟩
          [⟨"o9", some "cs_9", some "pi_9", OrderStatus.checkout_completed⟩]
          "o9" "Background incorrect").db "o9" =
        some OrderStatus.refund_failed := by
  exact ⟨by decide, by decide⟩

/-- C9 (corrected — amended): the rejection reason is forwarded to the
refund gateway inside the refund call (as refund metadata) but is not
persisted anywhere on the order record — the final database does not depend
on the reason string — and after a refund-gateway failure the order holds
status `refund_failed` with its id, session id and payment-intent id
unchanged. -/
theorem spec_c9_amended :
    ∀ (env : RejectEnv) (db : Db) (oid reason : String) (o : Order) (p : String),
      getOrderById db oid = some o →
      o.status = OrderStatus.checkout_completed →
      o.stripePaymentIntentId = some p → p ≠ "" →
      (rejectOrder env db oid reason).calls = [RemoteCall.refund p oid reason] ∧
        (∀ reason2 : String,
          (rejectOrder env db oid reason).db = (rejectOrder env db oid reason2).db) ∧
        (∀ e, env.refundResult = Except.error e →
          statusOf (rejectOrder env db oid reason).db oid =
              some OrderStatus.refund_failed ∧
            paymentIntentOf (rejectOrder env db oid reason).db oid = some p ∧
            sessionIdOf (rejectOrder env db oid reason).db oid =
              o.stripeSessionId) := by
  intro env db oid reason o p hord hst hpi hp
  have hid : o.id = oid := getOrderById_id hord
  have hopen : ∀ r : String, rejectOrder env db oid r =
      match env.refundResult with
      | Except.ok _ =>
        ⟨updateOrderStatus (updateOrderStatus db oid OrderStatus.rejected) oid
          OrderStatus.refund_succeeded, none, [RemoteCall.refund p oid r]⟩
      | Except.error e =>
        ⟨updateOrderStatus (updateOrderStatus db oid OrderStatus.rejected) oid
          OrderStatus.refund_failed,
         some ("Failed to process refund: " ++ e), [RemoteCall.refund p oid r]⟩ := by
    intro r
    unfold rejectOrder
    rw [hord]
    simp only [hst, if_neg (by simp : ¬ OrderStatus.checkout_completed ≠
      OrderStatus.checkout_completed), hpi, if_neg hp]
  refine ⟨?_, ?_, ?_⟩
  · rw [hopen reason]
    cases env.refundResult <;> rfl
  · intro reason2
    rw [hopen reason, hopen reason2]
    cases env.refundResult <;> rfl
  · intro e he
    rw [hopen reason, he]
    have hfind : getOrderById (updateOrderStatus (updateOrderStatus db oid
        OrderStatus.rejected) oid OrderStatus.refund_failed) oid =
        some { o with status := OrderStatus.refund_failed } := by
      unfold updateOrderStatus
      rw [getOrderById_map _ _ (fun x => by by_cases hx : x.id = oid <;> simp [hx]) oid,
        getOrderById_map _ _ (fun x => by by_cases hx : x.id = oid <;> simp [hx]) oid,
        hord]
      simp [hid]
    refine ⟨?_, ?_, ?_⟩
    · unfold statusOf
      rw [hfind]
      rfl
    · unfold paymentIntentOf
      rw [hfind]
      simpa using hpi
    · unfold sessionIdOf
      rw [hfind]
      rfl

/-- C9 witness: the amended statement on a concrete `checkout_completed`
order with payment intent `pi_9` whose refund call throws. -/
theorem spec_c9_amended_witness :
    (rejectOrder ⟨Except.error "gateway down"⟩
          [⟨"o9", some "cs_9", some "pi_9", OrderStatus.checkout_completed⟩]
          "o9" "Background incorrect").calls =
        [RemoteCall.refund "pi_9" "o9" "Background incorrect"] ∧
      statusOf (rejectOrder ⟨Except.error "gateway down"⟩
          [⟨"o9", some "cs_9", some "pi_9", OrderStatus.checkout_completed⟩]
          "o9" "Background incorrect").db "o9" = some OrderStatus.refund_failed := by
  have h := spec_c9_amended ⟨Except.error "gateway down"⟩
    [⟨"o9", some "cs_9", some "pi_9", OrderStatus.checkout_completed⟩]
    "o9" "Background incorrect"
    ⟨"o9", some "cs_9", some "pi_9", OrderStatus.checkout_completed⟩ "pi_9"
    (by decide) (by decide) (by decide) (by decide)
  exact ⟨h.1, (h.2.2 "gateway down" rfl).1⟩

end Notary
